import Mathlib

/-!
# Verification of the DTP_API client library

Shallow embedding of three modules of the BIM2TWIN DTP_API repository:

* `multiprocessing_logging.py` — the multi-process logging aggregator
  (`listener_configurer`, `listener_process`);
* `DTP_config.py` — the `DTPConfig` settings loader;
* `dtp_apis/count_DTP_API.py` — the `CountAPI` mixin with the three count
  methods.

Pure Python functions become Lean functions; the listener loop becomes a
recursive function over the (finite) queue contents; side effects (network
calls, HTTP posts) become an explicit event trace; exceptions become
`Except` values.
-/

namespace DTPAPI

/-! ## Python string helpers

Models of the Python `str` operations the sources use:
`strip(' \t\n\r')`, `rstrip(' \t\n\r')`, `replace(old, new)`. -/

/-- The character set passed to `strip` / `rstrip` throughout the sources. -/
def stripChars : List Char := [' ', '\t', '\n', '\r']

/-- `s.rstrip(' \t\n\r')`. -/
def pyRStrip (s : String) : String :=
  ⟨(s.data.reverse.dropWhile (· ∈ stripChars)).reverse⟩

/-- `s.lstrip(' \t\n\r')`. -/
def pyLStrip (s : String) : String :=
  ⟨s.data.dropWhile (· ∈ stripChars)⟩

/-- `s.strip(' \t\n\r')`. -/
def pyStrip (s : String) : String := pyRStrip (pyLStrip s)

/-- One step of Python `str.replace` on character lists: scan left to right,
replace each non-overlapping occurrence of the (non-empty) pattern
`o :: os`, never re-scanning the inserted replacement. -/
def replaceAllChars (o : Char) (os : List Char) (new : List Char) :
    List Char → List Char
  | [] => []
  | c :: rest =>
    if (o :: os).isPrefixOf (c :: rest) then
      new ++ replaceAllChars o os new (rest.drop os.length)
    else
      c :: replaceAllChars o os new rest
termination_by l => l.length
decreasing_by
  · simp only [List.length_drop, List.length_cons]; omega
  · simp only [List.length_cons]; omega

/-- `s.replace(old, new)` for a non-empty `old` (the sources only call it
with the fixed pattern `"_ID_"`). -/
def pyReplace (s old new : String) : String :=
  match old.data with
  | [] => s
  | o :: os => ⟨replaceAllChars o os new.data s.data⟩

/-! ## `multiprocessing_logging.py` — the logging aggregator

The `logging` module's global state is modelled as a registry mapping a
logger name to the list of `baseFilename` strings of its attached
handlers (a non-file handler would contribute `""`, exactly what
`fh.__dict__.get('baseFilename', '')` yields for it). -/

/-- The handler lists of the global `logging` registry, keyed by logger
name; `logging.getLogger(name)` for an unregistered name yields a logger
with no handlers. -/
abbrev LoggerRegistry := List (String × List String)

/-- `logging.getLogger(name).handlers`, as the list of each handler's
`baseFilename` (`''` for a handler without one). -/
def getLoggerHandlers (reg : LoggerRegistry) (name : String) : List String :=
  (List.lookup name reg).getD []

/-- Replace (or create) the handler list of logger `name`, keeping the
registry's insertion order as a Python `dict` does. -/
def setLoggerHandlers : LoggerRegistry → String → List String → LoggerRegistry
  | [], name, hs => [(name, hs)]
  | p :: rest, name, hs =>
    if p.1 = name then (name, hs) :: rest
    else p :: setLoggerHandlers rest name hs

/-- `os.path.join(a, b)`: `b` if `b` is absolute, else `a` and `b` glued
with exactly one separator. -/
def os_path_join (a b : String) : String :=
  if "/".data.isPrefixOf b.data then b
  else if a = "" ∨ "/".data.isSuffixOf a.data then a ++ b
  else a ++ "/" ++ b

/-- `os.path.abspath` relative to a working directory `cwd` (the
`logging.FileHandler` constructor stores `self.baseFilename =
os.path.abspath(filename)`). -/
def os_path_abspath (cwd p : String) : String :=
  if "/".data.isPrefixOf p.data then p else os_path_join cwd p

/-- `listener_configurer(log_name, log_file_path)`: builds a
`FileHandler` on `<log_file_path>/<log_name>.log`, collects the
`baseFilename` of every handler already attached to
`logging.getLogger(log_name)`, and attaches the new handler only when no
attached handler has the same `baseFilename`.  The formatter and level
assignments do not touch the handler list, which is all this model
tracks.  Returns the updated registry. -/
def listener_configurer (cwd : String) (reg : LoggerRegistry)
    (log_name log_file_path : String) : LoggerRegistry :=
  let fh_baseFilename :=
    os_path_abspath cwd (os_path_join log_file_path (log_name ++ ".log"))
  let current_fh_names := getLoggerHandlers reg log_name
  if fh_baseFilename ∈ current_fh_names then reg
  else setLoggerHandlers reg log_name (current_fh_names ++ [fh_baseFilename])

/-- A log record as the listener sees it: the logger name used to resolve
the sink, the message, and whether `logger.handle(record)` raises on it
(a malformed record). -/
structure LogRecord where
  name : String
  msg : String
  malformed : Bool
deriving Repr, DecidableEq

/-- How a run of `listener_process` over a finite queue content ends:
it `returned` (broke out of the loop on the sentinel), `crashed` (an
exception escaped the loop), or would still be `blocked` on
`queue.get()` after consuming every item. -/
inductive ListenerOutcome where
  | returned
  | crashed
  | blocked
deriving Repr, DecidableEq

/-- The observable result of a listener run: the records written to
their sinks in order, the lines printed to `stderr`, and the outcome. -/
structure ListenerRun where
  written : List LogRecord
  stderr : List String
  outcome : ListenerOutcome
deriving Repr, DecidableEq

/-- `traceback.print_last(limit=1, file=sys.stderr)`: prints the last
exception recorded in `sys.last_type`/`sys.last_exc` — which only an
interactive top level ever sets — and raises
`ValueError("no last exception")` when none is recorded.  `sysLast`
is that piece of interpreter state; `.ok` carries the printed line. -/
def traceback_print_last (sysLast : Option String) : Except String String :=
  match sysLast with
  | none => .error "ValueError: no last exception"
  | some tb => .ok tb

/-- The loop of `listener_process(queue, configurer, log_name,
log_file_path)` after the initial `configurer` call, run over a finite
queue content (`none` is the stop sentinel).  Each iteration:
`record = queue.get()`; on the sentinel, `break`; otherwise
`logging.getLogger(record.name).handle(record)`.  Any exception is
caught, `'Failure in listener_process'` is printed to `stderr`, and
`traceback.print_last(limit=1, file=sys.stderr)` is called — itself
raising when `sysLast` is unset, an exception the `except` block does
not catch, so it escapes the `while` loop. -/
def listener_loop (sysLast : Option String) :
    List (Option LogRecord) → ListenerRun
  | [] => ⟨[], [], .blocked⟩
  | none :: _ => ⟨[], [], .returned⟩
  | some r :: rest =>
    if r.malformed then
      match traceback_print_last sysLast with
      | .error _ => ⟨[], ["Failure in listener_process"], .crashed⟩
      | .ok tb =>
        let rec' := listener_loop sysLast rest
        ⟨rec'.written, "Failure in listener_process" :: tb :: rec'.stderr,
          rec'.outcome⟩
    else
      let rec' := listener_loop sysLast rest
      ⟨r :: rec'.written, rec'.stderr, rec'.outcome⟩

/-- `listener_process` runs in a freshly spawned process, where
`sys.last_type`/`sys.last_exc` are never set: its loop is
`listener_loop none`. -/
def listener_process (queue : List (Option LogRecord)) : ListenerRun :=
  listener_loop none queue

/-! ## `DTP_config.py` — the `DTPConfig` settings loader -/

/-- A raised Python exception, by class and message (the sources raise
plain `Exception`s, `KeyError`s from dictionary subscripts, and an
`assert`). -/
inductive PyErr where
  | exc (msg : String)
  | keyError (key : String)
  | valueError (msg : String)
  | typeError (msg : String)
  | assertionError (msg : String)
deriving Repr, DecidableEq

/-- A JSON value, for request payloads and response bodies. -/
inductive Json where
  | str (s : String)
  | bool (b : Bool)
  | num (n : Int)
  | arr (xs : List Json)
  | obj (fields : List (String × Json))

/-- An observable side effect of the client: the `GET` against the fixed
authentication endpoint, `os.makedirs`, or an HTTP `POST` to the
platform. -/
inductive Event where
  | authCall
  | makedirs (dir : String)
  | httpPost (url : String) (payload : Json)

/-- Modelled from the spec: the third-party `validators.url` syntactic
check (the library is not part of this repository; the spec calls for
"a syntactically valid URL", with `"not a url"` as the example of an
invalid one).  A string passes only with an `http`/`https` scheme, a
non-empty remainder, and no whitespace. -/
def validators_url (s : String) : Bool :=
  ("http://".data.isPrefixOf s.data || "https://".data.isPrefixOf s.data) &&
  decide (s.length > (if "https://".data.isPrefixOf s.data then 8 else 7)) &&
  s.data.all (fun c => ¬ c.isWhitespace)

/-- The environment `DTPConfig.__init__` reads besides the XML file: the
state of the `thingin_token.txt` cache next to the module, and the
behaviour of the fixed authentication endpoint. -/
structure TokenEnv where
  /-- `os.path.isfile(thingin_token.txt)`. -/
  cacheExists : Bool
  /-- the cache file is at most 24 hours old. -/
  cacheFresh : Bool
  /-- `f.readlines()` on the cache file. -/
  cacheLines : List String
  /-- the auth endpoint answers the `GET` with status 200. -/
  authOk : Bool
  /-- `response.text` of a successful authentication. -/
  authText : String
deriving Repr, DecidableEq

/-- `DTPConfig.__get_dev_thingin_token`: prompts for credentials, issues
one `GET` against the fixed auth endpoint, and on status 200 stores and
returns `response.text.strip()`; otherwise raises
`Exception("Authentication failed!")`. -/
def get_dev_thingin_token (env : TokenEnv) : List Event × Except PyErr String :=
  ([Event.authCall],
    if env.authOk then .ok (pyStrip env.authText)
    else .error (.exc "Authentication failed!"))

/-- `DTPConfig.__read_token_file`: concatenates the lines of the token
file, each `rstrip(' \t\n\r')`-ed; when the result is empty it prints an
apology and falls back to `__get_dev_thingin_token`. -/
def read_token_file (env : TokenEnv) : List Event × Except PyErr String :=
  let token := String.join (env.cacheLines.map pyRStrip)
  if token.length = 0 then get_dev_thingin_token env
  else ([], .ok token)

/-- `DTPConfig.__check_token_expired`: the cache is expired when the file
is absent or older than 24 hours. -/
def check_token_expired (env : TokenEnv) : Bool :=
  if env.cacheExists then !env.cacheFresh else true

/-- `DTPConfig.__get_dev_token`: re-authenticate when the cache is
expired, otherwise read the cache file. -/
def get_dev_token (env : TokenEnv) : List Event × Except PyErr String :=
  if check_token_expired env then get_dev_thingin_token env
  else read_token_file env

/-- The parsed XML configuration file, field texts as written (an
`Option` for the sections `__init__` guards with `is None`). -/
structure XmlFile where
  version : String
  dtp_domain : String
  kpi_domain : String
  log_dir : String
  /-- `API_URLS` entries as (`function` attribute, element text). -/
  api_urls : Option (List (String × String))
  /-- `ONTOLOGY_URIS` entries as (`function` attribute, element text). -/
  ontology_uris : Option (List (String × String))
  /-- `OBJECT_TYPES` entries as (element text, `field` attribute). -/
  object_types : Option (List (String × String))
  /-- `OBJECT_TYPE_CONVERSIONS` entries as (`from`, `to`) attributes. -/
  object_type_conversions : Option (List (String × String))
  /-- `os.path.exists(LOG_DIR)` after stripping. -/
  logDirExists : Bool
deriving Repr, DecidableEq

/-- Python `dict[k] = v` on an association list: overwrite the existing
binding in place or append a new one, preserving insertion order. -/
def dictInsert : List (String × String) → String → String →
    List (String × String)
  | [], k, v => [(k, v)]
  | p :: rest, k, v =>
    if p.1 = k then (k, v) :: rest
    else p :: dictInsert rest k v

/-- `DTPConfig.__map_api_urls` / `__map_ontology_uris`: strip the
`function` attribute and the text of every entry into a dictionary. -/
def map_function_uris (uris : List (String × String)) :
    List (String × String) :=
  uris.foldl (fun m p => dictInsert m (pyStrip p.1) (pyStrip p.2)) []

/-- `DTPConfig.__map_object_types`: deduplicating appends of the element
texts and of the `field` attributes. -/
def map_object_types (objet_types : List (String × String)) :
    List String × List String :=
  objet_types.foldl
    (fun acc p =>
      let types := if pyStrip p.1 ∈ acc.1 then acc.1 else acc.1 ++ [pyStrip p.1]
      let classes :=
        if pyStrip p.2 ∈ acc.2 then acc.2 else acc.2 ++ [pyStrip p.2]
      (types, classes))
    ([], [])

/-- `DTPConfig.__map_object_type_conversions`. -/
def map_object_type_conversions (objet_type_map : List (String × String)) :
    List (String × String) :=
  objet_type_map.foldl (fun m p => dictInsert m (pyStrip p.1) (pyStrip p.2)) []

/-- The constructed `DTPConfig` object. -/
structure DTPConfig where
  version : String
  token : String
  dtp_domain : String
  kpi_domain : String
  log_dir : String
  api_uris : List (String × String)
  ontology_uris : List (String × String)
  objet_types : List String
  objet_type_classes : List String
  objet_type_maps : List (String × String)
deriving Repr, DecidableEq

/-- `DTPConfig.__init__(xml_path)`, over the parsed file and the token
environment, with the event trace of side effects.  The order is the
source's: version, then token acquisition, then DTP domain validation
and normalization, then KPI domain, then `LOG_DIR` (assert and
`makedirs`), then the four mapping sections. -/
def DTPConfig_init (xml : XmlFile) (tok : TokenEnv) :
    List Event × Except PyErr DTPConfig :=
  let version := pyStrip xml.version
  match get_dev_token tok with
  | (evs, .error e) => (evs, .error e)
  | (evs, .ok token) =>
    let dtp_domain := pyStrip xml.dtp_domain
    if ¬ validators_url dtp_domain then
      (evs, .error (.exc "Sorry, the DTP domain URL is not a valid URL."))
    else
      let dtp_domain :=
        if dtp_domain.data.getLast? ≠ some '/' then dtp_domain ++ "/"
        else dtp_domain
      let kpi_domain := pyStrip xml.kpi_domain
      if ¬ validators_url kpi_domain then
        (evs, .error (.exc "Sorry, the DTP domain URL is not a valid URL."))
      else
        let kpi_domain :=
          if kpi_domain.data.getLast? ≠ some '/' then kpi_domain ++ "/"
          else kpi_domain
        let log_dir := pyStrip xml.log_dir
        if log_dir = "/path/to/log/dir" then
          (evs, .error (.assertionError "Please set LOG_DIR in DTP_config.xml"))
        else
          let evs := evs ++ if xml.logDirExists then [] else [.makedirs log_dir]
          let api_uris := map_function_uris (xml.api_urls.getD [])
          let ontology_uris := map_function_uris (xml.ontology_uris.getD [])
          let (objet_types, objet_type_classes) :=
            map_object_types (xml.object_types.getD [])
          let objet_type_maps :=
            map_object_type_conversions (xml.object_type_conversions.getD [])
          (evs, .ok ⟨version, token, dtp_domain, kpi_domain, log_dir,
            api_uris, ontology_uris, objet_types, objet_type_classes,
            objet_type_maps⟩)

/-- `DTPConfig.get_api_url(api_type, id=' ')`: with a blank `id` the
stored template as-is, otherwise the template with every `'_ID_'`
replaced by `id`; a missing `api_type` raises `KeyError`. -/
def get_api_url (cfg : DTPConfig) (api_type : String) (id : String) :
    Except PyErr String :=
  if (pyStrip id).length = 0 then
    match List.lookup api_type cfg.api_uris with
    | none => .error (.keyError api_type)
    | some t => .ok t
  else
    match List.lookup api_type cfg.api_uris with
    | none => .error (.keyError api_type)
    | some t => .ok (pyReplace t "_ID_" id)

/-- `DTPConfig.get_ontology_uri(ontology_type)`: dictionary subscript. -/
def get_ontology_uri (cfg : DTPConfig) (ontology_type : String) :
    Except PyErr String :=
  match List.lookup ontology_type cfg.ontology_uris with
  | none => .error (.keyError ontology_type)
  | some u => .ok u

/-- `DTPConfig.get_domain`. -/
def get_domain (cfg : DTPConfig) : String := cfg.dtp_domain

/-! ## `dtp_apis/count_DTP_API.py` — the `CountAPI` mixin

The mixin reads `self.DTP_CONFIG` and calls `self.post_general_request`;
the HTTP layer is an oracle mapping the posted url and payload to a
response. -/

/-- An HTTP response: status code and the result of `.json()` (`none`
when the body is not valid JSON, in which case `.json()` raises). -/
structure HttpResponse where
  status : Nat
  jsonBody : Option Json

/-- The network as seen by `post_general_request`. -/
abbrev HttpOracle := String → Json → HttpResponse

/-- Modelled from the spec: `post_general_request` lives in a helper
mixin that is not among the given sources.  Per the spec it submits the
payload as a single HTTP POST to the url and fails on a non-success
status ("success is any 2xx"; "Fails with `RequestError` on non-success
HTTP status"). -/
def post_general_request (net : HttpOracle) (payload : Json) (url : String) :
    List Event × Except PyErr HttpResponse :=
  let resp := net url payload
  ([Event.httpPost url payload],
    if 200 ≤ resp.status ∧ resp.status < 300 then .ok resp
    else .error (.exc "RequestError"))

/-- `response.json()[key]`: raises on a missing body or key, or a
non-object body. -/
def json_subscript (resp : HttpResponse) (key : String) : Except PyErr Json :=
  match resp.jsonBody with
  | none => .error (.valueError "malformed JSON")
  | some (Json.obj fields) =>
    match List.lookup key fields with
    | none => .error (.keyError key)
    | some v => .ok v
  | some _ => .error (.typeError "response body is not a JSON object")

/-- Python `int(x)` on a JSON value: identity on integers, `True`/`False`
as 1/0, digit strings parsed, anything else a `TypeError`/`ValueError`. -/
def pyInt (v : Json) : Except PyErr Int :=
  match v with
  | .num n => .ok n
  | .bool b => .ok (if b then 1 else 0)
  | .str s =>
    match (pyStrip s).toInt? with
    | some n => .ok n
    | none => .error (.valueError ("invalid literal for int: " ++ s))
  | _ => .error (.typeError "int() argument must be a string or a number")

/-- The two-stage payload (`json.dumps` argument) shared by the three
count methods.  `relKey` is the already-direction-prefixed relation key
of stage 1, `aliasName` the alias, `stage2extra` the extra stage-2
fields after `$classes` (the `isAsDesigned: False` property filter of
`asdesigned_count_connected_asbuilt_nodes`, nothing for the others). -/
def countQueryPayload (cfg : DTPConfig)
    (node_iri relKey aliasName classUri : String)
    (stage2extra : List (String × Json)) : Json :=
  Json.obj
    [("query", Json.arr
      [Json.obj
        [("$domain", Json.str (get_domain cfg)),
         ("$iri", Json.str node_iri),
         (relKey, Json.obj [("$alias", Json.str aliasName)])],
       Json.obj
        ([("$alias", Json.str aliasName),
          ("$domain", Json.str (get_domain cfg)),
          ("$classes", Json.obj
            [("$contains", Json.str classUri),
             ("$inheritance", Json.bool true)])] ++ stage2extra)]),
     ("edge", Json.bool true),
     ("return", Json.str aliasName)]

/-- The rest of the shared shape of the three count methods: with the
payload above, resolve the `count_nodes` url, POST once, and return
`int(output.json()['total_items'])`. -/
def count_query_call (cfg : DTPConfig) (net : HttpOracle)
    (node_iri relKey aliasName classUri : String)
    (stage2extra : List (String × Json)) : List Event × Except PyErr Int :=
  let payload := countQueryPayload cfg node_iri relKey aliasName classUri
    stage2extra
  match get_api_url cfg "count_nodes" " " with
  | .error e => ([], .error e)
  | .ok url =>
    let (evs, res) := post_general_request net payload url
    (evs,
      match res with
      | .error e => .error e
      | .ok output =>
        match json_subscript output "total_items" with
        | .error e => .error e
        | .ok v => pyInt v)

/-- `CountAPI.activity_count_connected_task_nodes(activity_node_iri)`:
stage 1 follows the outgoing `hasTask` relation under alias `"hasTask"`,
stage 2 filters by the `task` class. -/
def activity_count_connected_task_nodes (cfg : DTPConfig) (net : HttpOracle)
    (activity_node_iri : String) : List Event × Except PyErr Int :=
  match get_ontology_uri cfg "hasTask" with
  | .error e => ([], .error e)
  | .ok hasTaskUri =>
    match get_ontology_uri cfg "task" with
    | .error e => ([], .error e)
    | .ok taskUri =>
      count_query_call cfg net activity_node_iri
        ("->" ++ hasTaskUri) "hasTask" taskUri []

/-- `CountAPI.asdesigned_count_connected_asbuilt_nodes(node_iri)`:
stage 1 follows the incoming `intentStatusRelation` under alias
`"asbuilt"`, stage 2 filters by `classElement` plus the property filter
`isAsDesigned = False`. -/
def asdesigned_count_connected_asbuilt_nodes (cfg : DTPConfig)
    (net : HttpOracle) (node_iri : String) : List Event × Except PyErr Int :=
  match get_ontology_uri cfg "intentStatusRelation" with
  | .error e => ([], .error e)
  | .ok intentUri =>
    match get_ontology_uri cfg "classElement" with
    | .error e => ([], .error e)
    | .ok classElementUri =>
      match get_ontology_uri cfg "isAsDesigned" with
      | .error e => ([], .error e)
      | .ok isAsDesignedUri =>
        count_query_call cfg net node_iri
          ("<-" ++ intentUri) "asbuilt" classElementUri
          [(isAsDesignedUri, Json.bool false)]

/-- `CountAPI.asbuilt_count_connected_geomdefect_nodes(asbuilt_node_iri)`:
stage 1 follows the outgoing `hasGeometricDefect` relation under alias
`"defect"`, stage 2 filters by `GeometricDefect`. -/
def asbuilt_count_connected_geomdefect_nodes (cfg : DTPConfig)
    (net : HttpOracle) (asbuilt_node_iri : String) :
    List Event × Except PyErr Int :=
  match get_ontology_uri cfg "hasGeometricDefect" with
  | .error e => ([], .error e)
  | .ok hasDefectUri =>
    match get_ontology_uri cfg "GeometricDefect" with
    | .error e => ([], .error e)
    | .ok defectUri =>
      count_query_call cfg net asbuilt_node_iri
        ("->" ++ hasDefectUri) "defect" defectUri []

/-! ## Spec-side definitions (for refinement claims) -/

/-- `j` is a JSON object with a field `k` bound to `v`. -/
def jsonHasField (j : Json) (k : String) (v : Json) : Prop :=
  match j with
  | .obj fields => (k, v) ∈ fields
  | _ => False

/-- The request-body shape the spec describes for the count methods:
a two-element `query`, whose stage 1 selects the source node by `$iri`
and `$domain` and follows one directed relation (outgoing `->` or
incoming `<-`) under an `$alias`, and whose stage 2 filters the aliased
set by `$classes` membership with `$inheritance` true, plus an optional
extra property filter; submitted with `edge` true and `return` set to
that alias. -/
def IsTwoStageCountBody (body : Json) (domain iri relation : String)
    (outgoing : Bool) (aliasName classUri : String)
    (extraFilter : Option (String × Json)) : Prop :=
  ∃ stage1 stage2 : Json,
    jsonHasField body "query" (Json.arr [stage1, stage2]) ∧
    jsonHasField body "edge" (Json.bool true) ∧
    jsonHasField body "return" (Json.str aliasName) ∧
    jsonHasField stage1 "$iri" (Json.str iri) ∧
    jsonHasField stage1 "$domain" (Json.str domain) ∧
    jsonHasField stage1 ((if outgoing then "->" else "<-") ++ relation)
      (Json.obj [("$alias", Json.str aliasName)]) ∧
    jsonHasField stage2 "$alias" (Json.str aliasName) ∧
    (∃ cls : Json, jsonHasField stage2 "$classes" cls ∧
      jsonHasField cls "$contains" (Json.str classUri) ∧
      jsonHasField cls "$inheritance" (Json.bool true)) ∧
    (∀ kv ∈ extraFilter.toList, jsonHasField stage2 kv.1 kv.2)

/-! ## Concrete sample data (for witnesses) -/

/-- A sample constructed configuration used by the concrete witnesses. -/
def sampleConfig : DTPConfig :=
  ⟨"1.0", "TOKEN", "https://dtp.example.org/", "https://kpi.example.org/",
   "/logs",
   [("count_nodes", "https://dtp.example.org/api/query/count/_ID_")],
   [("hasTask", "https://bim2twin.eu/ontology#hasTask"),
    ("task", "https://bim2twin.eu/ontology#Task"),
    ("intentStatusRelation", "https://bim2twin.eu/ontology#intentStatus"),
    ("classElement", "https://bim2twin.eu/ontology#ClassElement"),
    ("isAsDesigned", "https://bim2twin.eu/ontology#isAsDesigned"),
    ("hasGeometricDefect", "https://bim2twin.eu/ontology#hasGeomDefect"),
    ("GeometricDefect", "https://bim2twin.eu/ontology#GeometricDefect")],
   [], [], []⟩

/-- `sampleConfig` with an empty `API_URLS` mapping. -/
def sampleConfigNoApi : DTPConfig :=
  ⟨"1.0", "TOKEN", "https://dtp.example.org/", "https://kpi.example.org/",
   "/logs", [], sampleConfig.ontology_uris, [], [], []⟩

/-- A network whose every response is `200` with body
`{"total_items": 7}`. -/
def sampleOracle : HttpOracle :=
  fun _ _ => ⟨200, some (Json.obj [("total_items", Json.num 7)])⟩

/-! ## Theorems: the logging aggregator -/

/-- Draining a well-formed queue segment before the first sentinel: the
loop writes exactly those records, prints nothing, and returns. -/
theorem listener_loop_clean_segment (sysLast : Option String) :
    ∀ a b : List (Option LogRecord), none ∉ a →
      (∀ r ∈ a.reduceOption, r.malformed = false) →
      listener_loop sysLast (a ++ none :: b) =
        ⟨a.reduceOption, [], .returned⟩ := by
  intro a
  induction a with
  | nil => intro b _ _; simp [listener_loop]
  | cons x xs ih =>
    intro b hnone hwf
    match x with
    | none => exact absurd (List.mem_cons_self _ _) hnone
    | some r =>
      have hr : r.malformed = false := by
        apply hwf
        simp [List.reduceOption]
      have hnone' : none ∉ xs := fun h => hnone (List.mem_cons_of_mem _ h)
      have hwf' : ∀ r' ∈ xs.reduceOption, r'.malformed = false := by
        intro r' h
        apply hwf
        simp only [List.reduceOption_cons_of_some, List.mem_cons]
        exact Or.inr h
      simp [listener_loop, hr, ih b hnone' hwf', List.reduceOption]

/-- A queue content with no sentinel never makes the loop return: it
either crashes or is left blocked on `queue.get()`. -/
theorem listener_loop_no_sentinel (sysLast : Option String) :
    ∀ q : List (Option LogRecord), none ∉ q →
      (listener_loop sysLast q).outcome ≠ .returned := by
  intro q
  induction q with
  | nil => intro _; simp [listener_loop]
  | cons x xs ih =>
    intro hnone
    match x with
    | none => exact absurd (List.mem_cons_self _ _) hnone
    | some r =>
      have hxs : none ∉ xs := fun h => hnone (List.mem_cons_of_mem _ h)
      by_cases hr : r.malformed
      · cases sysLast with
        | none => simp [listener_loop, hr, traceback_print_last]
        | some tb => simpa [listener_loop, hr, traceback_print_last] using ih hxs
      · simpa [listener_loop, hr] using ih hxs

/-- C1: for every queue content, `listener_process` exits and returns
exactly when it receives the stop sentinel `None`: with the sentinel at
a fixed position, every (well-formed) record before it is handled and
written, in order, and the run's result does not depend on anything
positioned after the sentinel (which is universally quantified out);
without a sentinel the loop never returns. -/
theorem listener_process_stops_exactly_at_sentinel
    (a b q : List (Option LogRecord))
    (hnone : none ∉ a)
    (hwf : ∀ r ∈ a.reduceOption, r.malformed = false)
    (hq : none ∉ q) :
    listener_process (a ++ none :: b) = ⟨a.reduceOption, [], .returned⟩ ∧
      (listener_process q).outcome ≠ .returned :=
  ⟨listener_loop_clean_segment none a b hnone hwf,
   listener_loop_no_sentinel none q hq⟩

/-- Witness for C1 at a concrete queue: two records, the sentinel, then
a late record that is never processed; and a sentinel-free queue that
never returns. -/
theorem listener_process_stops_exactly_at_sentinel_witness :
    listener_process [some ⟨"build", "start", false⟩,
        some ⟨"build", "done", false⟩, none, some ⟨"build", "late", false⟩] =
      ⟨[⟨"build", "start", false⟩, ⟨"build", "done", false⟩], [], .returned⟩ ∧
      (listener_process [some ⟨"build", "solo", false⟩]).outcome ≠ .returned :=
  listener_process_stops_exactly_at_sentinel
    [some ⟨"build", "start", false⟩, some ⟨"build", "done", false⟩]
    [some ⟨"build", "late", false⟩]
    [some ⟨"build", "solo", false⟩]
    (by decide) (by decide) (by decide)

/-- C2: the code contradicts the claim.  On the first record whose
handling raises, the `except` block prints the diagnostic and then calls
`traceback.print_last`, which itself raises
`ValueError("no last exception")` in a freshly spawned listener process
(nothing has ever set `sys.last_type`/`sys.last_exc` there); that
exception is not caught, so the loop terminates: the valid record
enqueued after the bad one is never written even though it precedes the
sentinel. -/
theorem listener_process_dies_on_first_bad_record :
    listener_process [some ⟨"build", "start", false⟩,
        some ⟨"bad", "boom", true⟩, some ⟨"build", "done", false⟩, none] =
      ⟨[⟨"build", "start", false⟩], ["Failure in listener_process"],
        .crashed⟩ := by
  decide

/-- `List.lookup` after `setLoggerHandlers` finds the written list. -/
theorem lookup_setLoggerHandlers_self (reg : LoggerRegistry) (name : String)
    (hs : List String) :
    List.lookup name (setLoggerHandlers reg name hs) = some hs := by
  induction reg with
  | nil => simp [setLoggerHandlers, List.lookup]
  | cons p rest ih =>
    obtain ⟨k, v⟩ := p
    by_cases h : k = name
    · simp [setLoggerHandlers, h, List.lookup]
    · have hbeq : (name == k) = false :=
        beq_eq_false_iff_ne.mpr (fun e => h e.symm)
      simp [setLoggerHandlers, h, List.lookup, hbeq, ih]

/-- Reading back the handler list just written to the registry. -/
theorem getLoggerHandlers_setLoggerHandlers (reg : LoggerRegistry)
    (name : String) (hs : List String) :
    getLoggerHandlers (setLoggerHandlers reg name hs) name = hs := by
  simp [getLoggerHandlers, lookup_setLoggerHandlers_self]

/-- When the resolved file path is already attached, `listener_configurer`
leaves the registry unchanged. -/
theorem listener_configurer_of_mem (cwd : String) (reg : LoggerRegistry)
    (log_name log_file_path : String)
    (hmem :
      os_path_abspath cwd (os_path_join log_file_path (log_name ++ ".log")) ∈
        getLoggerHandlers reg log_name) :
    listener_configurer cwd reg log_name log_file_path = reg := by
  simp [listener_configurer, hmem]

/-- When the resolved file path is not yet attached, `listener_configurer`
appends it to the logger's handler list. -/
theorem listener_configurer_of_not_mem (cwd : String) (reg : LoggerRegistry)
    (log_name log_file_path : String)
    (hfresh :
      os_path_abspath cwd (os_path_join log_file_path (log_name ++ ".log")) ∉
        getLoggerHandlers reg log_name) :
    listener_configurer cwd reg log_name log_file_path =
      setLoggerHandlers reg log_name (getLoggerHandlers reg log_name ++
        [os_path_abspath cwd (os_path_join log_file_path (log_name ++ ".log"))])
    := by
  simp [listener_configurer, hfresh]

/-- C3: `listener_configurer` is idempotent with respect to sink
attachment: starting from a registry in which the resolved file path of
`<log_file_path>/<log_name>.log` is not yet attached, a second call with
the identical pair changes nothing, and the logger ends up with exactly
one file sink for that resolved path. -/
theorem listener_configurer_idempotent (cwd : String) (reg : LoggerRegistry)
    (log_name log_file_path : String)
    (hfresh :
      os_path_abspath cwd (os_path_join log_file_path (log_name ++ ".log")) ∉
        getLoggerHandlers reg log_name) :
    listener_configurer cwd
        (listener_configurer cwd reg log_name log_file_path)
        log_name log_file_path =
      listener_configurer cwd reg log_name log_file_path ∧
      (getLoggerHandlers
          (listener_configurer cwd
            (listener_configurer cwd reg log_name log_file_path)
            log_name log_file_path) log_name).count
        (os_path_abspath cwd (os_path_join log_file_path (log_name ++ ".log")))
        = 1 := by
  have h2 : getLoggerHandlers
      (listener_configurer cwd reg log_name log_file_path) log_name =
      getLoggerHandlers reg log_name ++
        [os_path_abspath cwd (os_path_join log_file_path (log_name ++ ".log"))]
    := by
    rw [listener_configurer_of_not_mem cwd reg log_name log_file_path hfresh,
      getLoggerHandlers_setLoggerHandlers]
  have hmem :
      os_path_abspath cwd (os_path_join log_file_path (log_name ++ ".log")) ∈
        getLoggerHandlers
          (listener_configurer cwd reg log_name log_file_path) log_name := by
    rw [h2]
    exact List.mem_append_right _ (List.mem_singleton.mpr rfl)
  have h3 := listener_configurer_of_mem cwd
    (listener_configurer cwd reg log_name log_file_path)
    log_name log_file_path hmem
  refine ⟨h3, ?_⟩
  rw [h3, h2, List.count_append, List.count_eq_zero.mpr hfresh]
  simp

/-- Witness for C3: configuring `("build", "/var/log")` twice on an
empty registry leaves exactly one sink at `/var/log/build.log`. -/
theorem listener_configurer_idempotent_witness :
    listener_configurer "/app"
        (listener_configurer "/app" [] "build" "/var/log")
        "build" "/var/log" =
      listener_configurer "/app" [] "build" "/var/log" ∧
      (getLoggerHandlers
          (listener_configurer "/app"
            (listener_configurer "/app" [] "build" "/var/log")
            "build" "/var/log") "build").count
        (os_path_abspath "/app" (os_path_join "/var/log" ("build" ++ ".log")))
        = 1 :=
  listener_configurer_idempotent "/app" [] "build" "/var/log" (by decide)

/-- Mapping into `some` and reducing back is the identity. -/
theorem reduceOption_map_some {α : Type} (l : List α) :
    (l.map some).reduceOption = l := by
  induction l <;> simp_all [List.reduceOption]

/-- C4: per-producer FIFO order is preserved.  A producer's records
enter the shared queue as a subsequence `p` of the pre-sentinel queue
content (the queue interleaves producers arbitrarily but keeps each
producer's order); the sink receives them in that same relative order,
for every interleaving `a` and regardless of anything after the
sentinel. -/
theorem listener_process_preserves_producer_order
    (p : List LogRecord) (a b : List (Option LogRecord))
    (hsub : List.Sublist (p.map some) a)
    (hnone : none ∉ a)
    (hwf : ∀ r ∈ a.reduceOption, r.malformed = false) :
    List.Sublist p (listener_process (a ++ none :: b)).written := by
  have h := listener_loop_clean_segment none a b hnone hwf
  rw [listener_process, h]
  have hred : List.Sublist (p.map some).reduceOption a.reduceOption := by
    simpa [List.reduceOption] using hsub.filterMap id
  rwa [reduceOption_map_some] at hred

/-- Witness for C4: the producer sequence `start, done` interleaved with
another producer's record is written in the producer's order. -/
theorem listener_process_preserves_producer_order_witness :
    List.Sublist
      [(⟨"build", "start", false⟩ : LogRecord), ⟨"build", "done", false⟩]
      (listener_process [some ⟨"build", "start", false⟩,
        some ⟨"other", "noise", false⟩, some ⟨"build", "done", false⟩,
        none, some ⟨"other", "late", false⟩]).written :=
  listener_process_preserves_producer_order
    [⟨"build", "start", false⟩, ⟨"build", "done", false⟩]
    [some ⟨"build", "start", false⟩, some ⟨"other", "noise", false⟩,
      some ⟨"build", "done", false⟩]
    [some ⟨"other", "late", false⟩]
    (by decide) (by decide) (by decide)

/-! ## Theorems: the `DTPConfig` settings loader -/

/-- A string has length zero exactly when it is empty. -/
theorem string_length_eq_zero_iff (s : String) : s.length = 0 ↔ s = "" := by
  cases s with
  | mk data =>
    cases data with
    | nil => simp
    | cons c cs =>
      simp only [String.length]
      constructor
      · intro h; simp at h
      · intro h
        have : (String.mk (c :: cs)).data = "".data := by rw [h]
        simp at this

/-- With a fresh, non-empty token cache, token acquisition reads the
cache and touches no network. -/
theorem get_dev_token_of_fresh_cache (tok : TokenEnv)
    (hcache : tok.cacheExists = true) (hfresh : tok.cacheFresh = true)
    (htok : String.join (tok.cacheLines.map pyRStrip) ≠ "") :
    get_dev_token tok =
      ([], .ok (String.join (tok.cacheLines.map pyRStrip))) := by
  simp [get_dev_token, check_token_expired, hcache, hfresh, read_token_file,
    string_length_eq_zero_iff, htok]

/-- With an expired-or-absent cache, or a fresh but empty one, token
acquisition performs the network authentication call. -/
theorem get_dev_token_reauth (tok : TokenEnv)
    (h : check_token_expired tok = true ∨
      String.join (tok.cacheLines.map pyRStrip) = "") :
    get_dev_token tok = ([Event.authCall],
      if tok.authOk then .ok (pyStrip tok.authText)
      else .error (.exc "Authentication failed!")) := by
  rcases h with h | h
  · simp [get_dev_token, h, get_dev_thingin_token]
  · by_cases hex : check_token_expired tok = true
    · simp [get_dev_token, hex, get_dev_thingin_token]
    · simp [get_dev_token, hex, read_token_file, h, get_dev_thingin_token]

/-- C5 counterexample: with the token cache absent (the common first
run), `DTPConfig` construction on a file whose `DTP_DOMAIN` is
`"not a url"` performs the authentication network call *before* failing
on the URL check — the failure does not precede every network call. -/
theorem dtpconfig_network_call_before_url_check_cex :
    DTPConfig_init
      ⟨"1.0", "not a url", "https://kpi.example.org/", "/logs",
        none, none, none, none, true⟩
      ⟨false, false, [], true, "TOK"⟩ =
      ([Event.authCall],
        .error (.exc "Sorry, the DTP domain URL is not a valid URL.")) := by
  rfl

/-- C5 (amended): `DTPConfig` construction with a `DTP_DOMAIN` that is
not a syntactically valid URL fails with the ConfigError
`"Sorry, the DTP domain URL is not a valid URL."`; provided a fresh,
non-empty cached token exists, no network call is attempted (token
acquisition precedes domain validation and would otherwise call the
network first). -/
theorem dtpconfig_invalid_url_config_error (xml : XmlFile) (tok : TokenEnv)
    (hurl : validators_url (pyStrip xml.dtp_domain) = false)
    (hcache : tok.cacheExists = true) (hfresh : tok.cacheFresh = true)
    (htok : String.join (tok.cacheLines.map pyRStrip) ≠ "") :
    DTPConfig_init xml tok =
      ([], .error (.exc "Sorry, the DTP domain URL is not a valid URL."))
    := by
  have hdev := get_dev_token_of_fresh_cache tok hcache hfresh htok
  simp [DTPConfig_init, hdev, hurl]

/-- Witness for the amended C5 at a concrete configuration. -/
theorem dtpconfig_invalid_url_config_error_witness :
    DTPConfig_init
      ⟨"1.0", "not a url", "https://kpi.example.org/", "/logs",
        none, none, none, none, true⟩
      ⟨true, true, ["TOKEN\n"], true, "TOK"⟩ =
      ([], .error (.exc "Sorry, the DTP domain URL is not a valid URL."))
    :=
  dtpconfig_invalid_url_config_error
    ⟨"1.0", "not a url", "https://kpi.example.org/", "/logs",
      none, none, none, none, true⟩
    ⟨true, true, ["TOKEN\n"], true, "TOK"⟩
    (by decide) rfl rfl (by decide)

/-- C9 counterexample: a configuration whose token file exists, is
fresh, and contains no token text does *not* fail with a ConfigError —
the loader re-authenticates over the network and, that succeeding,
construction completes normally. -/
theorem dtpconfig_empty_token_file_no_config_error_cex :
    DTPConfig_init
      ⟨"1", "https://dtp.example.org/", "https://kpi.example.org", "/logs",
        some [("count_nodes", " https://dtp.example.org/api/count/_ID_ ")],
        some [("task", "https://w3id.org/task ")], none, none, true⟩
      ⟨true, true, ["\n", " \t\n"], true, " NEWTOK \n"⟩ =
      ([Event.authCall],
        .ok ⟨"1", "NEWTOK", "https://dtp.example.org/",
          "https://kpi.example.org/", "/logs",
          [("count_nodes", "https://dtp.example.org/api/count/_ID_")],
          [("task", "https://w3id.org/task")], [], [], []⟩) := by
  rfl

/-- C9 (amended): an empty token source does not raise a ConfigError;
it triggers network re-authentication — the event trace starts with the
auth call — and settings loading fails (with
`Exception("Authentication failed!")`, the spec's AuthError) exactly
when that authentication fails. -/
theorem dtpconfig_empty_token_reauthenticates (xml : XmlFile) (tok : TokenEnv)
    (_hcache : tok.cacheExists = true) (_hfresh : tok.cacheFresh = true)
    (hempty : String.join (tok.cacheLines.map pyRStrip) = "") :
    (DTPConfig_init xml tok).1.head? = some Event.authCall ∧
      (tok.authOk = false →
        DTPConfig_init xml tok =
          ([Event.authCall], .error (.exc "Authentication failed!"))) := by
  have hdev := get_dev_token_reauth tok (Or.inr hempty)
  constructor
  · cases hauth : tok.authOk with
    | false => simp [DTPConfig_init, hdev, hauth]
    | true =>
      simp only [DTPConfig_init, hdev, hauth, if_true]
      split
      · rfl
      · split
        · rfl
        · split
          · rfl
          · simp
  · intro hauth
    simp [DTPConfig_init, hdev, hauth]

/-- Witness for the amended C9: empty cache lines, failing auth. -/
theorem dtpconfig_empty_token_reauthenticates_witness :
    (DTPConfig_init
        ⟨"1", "https://dtp.example.org/", "https://kpi.example.org/",
          "/logs", none, none, none, none, true⟩
        ⟨true, true, ["\n"], false, ""⟩).1.head? = some Event.authCall ∧
      ((⟨true, true, ["\n"], false, ""⟩ : TokenEnv).authOk = false →
        DTPConfig_init
          ⟨"1", "https://dtp.example.org/", "https://kpi.example.org/",
            "/logs", none, none, none, none, true⟩
          ⟨true, true, ["\n"], false, ""⟩ =
          ([Event.authCall], .error (.exc "Authentication failed!"))) :=
  dtpconfig_empty_token_reauthenticates
    ⟨"1", "https://dtp.example.org/", "https://kpi.example.org/",
      "/logs", none, none, none, none, true⟩
    ⟨true, true, ["\n"], false, ""⟩
    rfl rfl (by decide)

/-- The characters stripped by the sources are exactly the whitespace
characters. -/
theorem mem_stripChars_iff (c : Char) : c ∈ stripChars ↔ c.isWhitespace := by
  simp only [stripChars, List.mem_cons, List.not_mem_nil, or_false,
    Char.isWhitespace, Bool.or_eq_true, decide_eq_true_eq]
  tauto

/-- `strip(' \t\n\r')` empties a string exactly when every character is
in the stripped set. -/
theorem pyStrip_eq_empty_iff (s : String) :
    pyStrip s = "" ↔ ∀ c ∈ s.data, c ∈ stripChars := by
  have hdata : (pyStrip s).data =
      ((s.data.dropWhile (fun c => decide (c ∈ stripChars))).reverse.dropWhile
        (fun c => decide (c ∈ stripChars))).reverse := rfl
  constructor
  · intro h c hc
    have hnil : (pyStrip s).data = [] := by rw [h]
    rw [hdata, List.reverse_eq_nil_iff, List.dropWhile_eq_nil_iff] at hnil
    have hsplit := List.takeWhile_append_dropWhile
      (p := fun c => decide (c ∈ stripChars)) (l := s.data)
    rw [← hsplit] at hc
    rcases List.mem_append.mp hc with h1 | h2
    · exact of_decide_eq_true
        (List.mem_takeWhile_imp (l := s.data)
          (p := fun c => decide (c ∈ stripChars)) h1)
    · exact of_decide_eq_true (hnil c (List.mem_reverse.mpr h2))
  · intro h
    apply String.ext
    rw [hdata]
    have h2 : s.data.dropWhile (fun c => decide (c ∈ stripChars)) = [] := by
      rw [List.dropWhile_eq_nil_iff]
      intro x hx
      exact decide_eq_true (h x hx)
    rw [h2]
    rfl

/-- C10: for an operation present in the mapping, `get_api_url` with a
blank (empty or all-whitespace) `id` returns the stored template
unchanged, and with an `id` containing any non-whitespace character it
returns the template with every occurrence of `'_ID_'` replaced by that
`id`. -/
theorem get_api_url_id_substitution (cfg : DTPConfig)
    (api_type id tmpl : String)
    (hlook : List.lookup api_type cfg.api_uris = some tmpl) :
    ((∀ c ∈ id.data, c.isWhitespace) →
      get_api_url cfg api_type id = .ok tmpl) ∧
    ((∃ c ∈ id.data, ¬ c.isWhitespace) →
      get_api_url cfg api_type id = .ok (pyReplace tmpl "_ID_" id)) := by
  constructor
  · intro hws
    have hempty : pyStrip id = "" :=
      (pyStrip_eq_empty_iff id).mpr
        (fun c hc => (mem_stripChars_iff c).mpr (hws c hc))
    have h0 : (pyStrip id).length = 0 := by rw [hempty]; rfl
    simp [get_api_url, h0, hlook]
  · rintro ⟨c, hc, hcw⟩
    have hne : pyStrip id ≠ "" := by
      intro h
      exact hcw ((mem_stripChars_iff c).mp ((pyStrip_eq_empty_iff id).mp h c hc))
    have hlen : ¬ (pyStrip id).length = 0 := by
      rw [string_length_eq_zero_iff]
      exact hne
    simp [get_api_url, hlen, hlook]

/-- Witness for C10: a blank id keeps the `_ID_` placeholder, a concrete
id is substituted into the template. -/
theorem get_api_url_id_substitution_witness :
    get_api_url sampleConfig "count_nodes" " \t" =
      .ok "https://dtp.example.org/api/query/count/_ID_" ∧
    get_api_url sampleConfig "count_nodes" "node42" =
      .ok (pyReplace "https://dtp.example.org/api/query/count/_ID_" "_ID_"
        "node42") :=
  ⟨(get_api_url_id_substitution sampleConfig "count_nodes" " \t"
      "https://dtp.example.org/api/query/count/_ID_" rfl).1 (by decide),
   (get_api_url_id_substitution sampleConfig "count_nodes" "node42"
      "https://dtp.example.org/api/query/count/_ID_" rfl).2
     ⟨'n', by decide, by decide⟩⟩

/-! ## Theorems: the `CountAPI` count methods -/

/-- C6: when the operation name `count_nodes` is absent from the
configured `API_URLS` mapping (and the ontology lookups of the method
succeed), the count method fails with the `KeyError` naming the missing
key, and its event trace is empty: no HTTP request is issued. -/
theorem count_missing_operation_no_http (cfg : DTPConfig) (net : HttpOracle)
    (iri hasTaskUri taskUri : String)
    (h1 : List.lookup "hasTask" cfg.ontology_uris = some hasTaskUri)
    (h2 : List.lookup "task" cfg.ontology_uris = some taskUri)
    (habs : List.lookup "count_nodes" cfg.api_uris = none) :
    activity_count_connected_task_nodes cfg net iri =
      ([], .error (.keyError "count_nodes")) := by
  have h0 : (pyStrip " ").length = 0 := rfl
  simp [activity_count_connected_task_nodes, get_ontology_uri, h1, h2,
    count_query_call, get_api_url, h0, habs]

/-- Witness for C6 on a configuration with an empty `API_URLS` map. -/
theorem count_missing_operation_no_http_witness :
    activity_count_connected_task_nodes sampleConfigNoApi sampleOracle
      "https://dtp.example.org/node/a1" =
      ([], .error (.keyError "count_nodes")) :=
  count_missing_operation_no_http sampleConfigNoApi sampleOracle
    "https://dtp.example.org/node/a1"
    "https://bim2twin.eu/ontology#hasTask" "https://bim2twin.eu/ontology#Task"
    rfl rfl rfl

/-- C7: on a successful (2xx) response whose JSON body binds
`total_items` to an integer `n`, each of the three count methods returns
exactly `n`. -/
theorem count_returns_total_items (cfg : DTPConfig) (net : HttpOracle)
    (iri tmpl : String)
    (hasTaskUri taskUri intentUri classElemUri isAsDesignedUri
      hasDefectUri geomDefectUri : String)
    (n : Int) (st : Nat) (fields : List (String × Json))
    (h1 : List.lookup "hasTask" cfg.ontology_uris = some hasTaskUri)
    (h2 : List.lookup "task" cfg.ontology_uris = some taskUri)
    (h3 : List.lookup "intentStatusRelation" cfg.ontology_uris =
      some intentUri)
    (h4 : List.lookup "classElement" cfg.ontology_uris = some classElemUri)
    (h5 : List.lookup "isAsDesigned" cfg.ontology_uris = some isAsDesignedUri)
    (h6 : List.lookup "hasGeometricDefect" cfg.ontology_uris =
      some hasDefectUri)
    (h7 : List.lookup "GeometricDefect" cfg.ontology_uris = some geomDefectUri)
    (hapi : List.lookup "count_nodes" cfg.api_uris = some tmpl)
    (hnet : ∀ u p, net u p = ⟨st, some (Json.obj fields)⟩)
    (h2xx : 200 ≤ st ∧ st < 300)
    (hfield : List.lookup "total_items" fields = some (Json.num n)) :
    (activity_count_connected_task_nodes cfg net iri).2 = .ok n ∧
    (asdesigned_count_connected_asbuilt_nodes cfg net iri).2 = .ok n ∧
    (asbuilt_count_connected_geomdefect_nodes cfg net iri).2 = .ok n := by
  have h0 : (pyStrip " ").length = 0 := rfl
  refine ⟨?_, ?_, ?_⟩ <;>
    simp [activity_count_connected_task_nodes,
      asdesigned_count_connected_asbuilt_nodes,
      asbuilt_count_connected_geomdefect_nodes, get_ontology_uri,
      h1, h2, h3, h4, h5, h6, h7, count_query_call, get_api_url, h0, hapi,
      post_general_request, hnet, h2xx.1, h2xx.2, json_subscript, hfield,
      pyInt]

/-- Witness for C7 against the sample configuration and a network
answering `200` with `{"total_items": 7}`. -/
theorem count_returns_total_items_witness :
    (activity_count_connected_task_nodes sampleConfig sampleOracle
      "https://dtp.example.org/node/a1").2 = .ok 7 ∧
    (asdesigned_count_connected_asbuilt_nodes sampleConfig sampleOracle
      "https://dtp.example.org/node/a1").2 = .ok 7 ∧
    (asbuilt_count_connected_geomdefect_nodes sampleConfig sampleOracle
      "https://dtp.example.org/node/a1").2 = .ok 7 :=
  count_returns_total_items sampleConfig sampleOracle
    "https://dtp.example.org/node/a1"
    "https://dtp.example.org/api/query/count/_ID_"
    "https://bim2twin.eu/ontology#hasTask" "https://bim2twin.eu/ontology#Task"
    "https://bim2twin.eu/ontology#intentStatus"
    "https://bim2twin.eu/ontology#ClassElement"
    "https://bim2twin.eu/ontology#isAsDesigned"
    "https://bim2twin.eu/ontology#hasGeomDefect"
    "https://bim2twin.eu/ontology#GeometricDefect"
    7 200 [("total_items", Json.num 7)]
    rfl rfl rfl rfl rfl rfl rfl rfl (fun _ _ => rfl) (by decide) rfl

/-- The payload the source builds satisfies the spec's two-stage shape
with the corresponding parameters. -/
theorem countQueryPayload_shape (cfg : DTPConfig)
    (iri relation aliasName clsUri : String) (outgoing : Bool)
    (extraOpt : Option (String × Json)) :
    IsTwoStageCountBody
      (countQueryPayload cfg iri ((if outgoing then "->" else "<-") ++
        relation) aliasName clsUri extraOpt.toList)
      cfg.dtp_domain iri relation outgoing aliasName clsUri extraOpt := by
  refine ⟨Json.obj [("$domain", Json.str (get_domain cfg)),
      ("$iri", Json.str iri),
      ((if outgoing then "->" else "<-") ++ relation,
        Json.obj [("$alias", Json.str aliasName)])],
    Json.obj ([("$alias", Json.str aliasName),
      ("$domain", Json.str (get_domain cfg)),
      ("$classes", Json.obj [("$contains", Json.str clsUri),
        ("$inheritance", Json.bool true)])] ++ extraOpt.toList),
    ?_, ?_, ?_, ?_, ?_, ?_, ?_,
    ⟨Json.obj [("$contains", Json.str clsUri),
      ("$inheritance", Json.bool true)], ?_, ?_, ?_⟩, ?_⟩
  · simp [jsonHasField, countQueryPayload, get_domain]
  · simp [jsonHasField, countQueryPayload, get_domain]
  · simp [jsonHasField, countQueryPayload, get_domain]
  · simp [jsonHasField, countQueryPayload, get_domain]
  · simp [jsonHasField, countQueryPayload, get_domain]
  · simp [jsonHasField, countQueryPayload, get_domain]
  · simp [jsonHasField, countQueryPayload, get_domain]
  · simp [jsonHasField, countQueryPayload, get_domain]
  · simp [jsonHasField, countQueryPayload, get_domain]
  · simp [jsonHasField, countQueryPayload, get_domain]
  · rcases extraOpt with _ | ⟨k, v⟩
    · rintro kv hkv
      cases hkv
    · rintro kv hkv
      have hk := List.mem_singleton.mp hkv
      subst hk
      simp [jsonHasField]

/-- C8: each count method issues exactly one POST, to the configured
`count_nodes` url, whose body has the spec's two-stage shape: stage 1
selects the node by `$iri` and `$domain` and follows the method's
directed relation under its alias; stage 2 filters the alias by
`$classes` membership with `$inheritance` true — with the extra
`isAsDesigned = false` property filter exactly for
`asdesigned_count_connected_asbuilt_nodes` — and the body carries
`edge = true` and `return` set to the alias. -/
theorem count_payload_two_stage_shape (cfg : DTPConfig) (net : HttpOracle)
    (iri tmpl : String)
    (hasTaskUri taskUri intentUri classElemUri isAsDesignedUri
      hasDefectUri geomDefectUri : String)
    (h1 : List.lookup "hasTask" cfg.ontology_uris = some hasTaskUri)
    (h2 : List.lookup "task" cfg.ontology_uris = some taskUri)
    (h3 : List.lookup "intentStatusRelation" cfg.ontology_uris =
      some intentUri)
    (h4 : List.lookup "classElement" cfg.ontology_uris = some classElemUri)
    (h5 : List.lookup "isAsDesigned" cfg.ontology_uris = some isAsDesignedUri)
    (h6 : List.lookup "hasGeometricDefect" cfg.ontology_uris =
      some hasDefectUri)
    (h7 : List.lookup "GeometricDefect" cfg.ontology_uris = some geomDefectUri)
    (hapi : List.lookup "count_nodes" cfg.api_uris = some tmpl) :
    ((activity_count_connected_task_nodes cfg net iri).1 =
      [Event.httpPost tmpl (countQueryPayload cfg iri ("->" ++ hasTaskUri)
        "hasTask" taskUri [])] ∧
      IsTwoStageCountBody
        (countQueryPayload cfg iri ("->" ++ hasTaskUri) "hasTask" taskUri [])
        cfg.dtp_domain iri hasTaskUri true "hasTask" taskUri none) ∧
    ((asdesigned_count_connected_asbuilt_nodes cfg net iri).1 =
      [Event.httpPost tmpl (countQueryPayload cfg iri ("<-" ++ intentUri)
        "asbuilt" classElemUri [(isAsDesignedUri, Json.bool false)])] ∧
      IsTwoStageCountBody
        (countQueryPayload cfg iri ("<-" ++ intentUri) "asbuilt" classElemUri
          [(isAsDesignedUri, Json.bool false)])
        cfg.dtp_domain iri intentUri false "asbuilt" classElemUri
        (some (isAsDesignedUri, Json.bool false))) ∧
    ((asbuilt_count_connected_geomdefect_nodes cfg net iri).1 =
      [Event.httpPost tmpl (countQueryPayload cfg iri ("->" ++ hasDefectUri)
        "defect" geomDefectUri [])] ∧
      IsTwoStageCountBody
        (countQueryPayload cfg iri ("->" ++ hasDefectUri) "defect"
          geomDefectUri [])
        cfg.dtp_domain iri hasDefectUri true "defect" geomDefectUri none)
    := by
  have h0 : (pyStrip " ").length = 0 := rfl
  refine ⟨⟨?_, ?_⟩, ⟨?_, ?_⟩, ⟨?_, ?_⟩⟩
  · simp [activity_count_connected_task_nodes, get_ontology_uri, h1, h2,
      count_query_call, get_api_url, h0, hapi, post_general_request]
  · simpa using countQueryPayload_shape cfg iri hasTaskUri "hasTask" taskUri
      true none
  · simp [asdesigned_count_connected_asbuilt_nodes, get_ontology_uri,
      h3, h4, h5, count_query_call, get_api_url, h0, hapi,
      post_general_request]
  · simpa using countQueryPayload_shape cfg iri intentUri "asbuilt"
      classElemUri false (some (isAsDesignedUri, Json.bool false))
  · simp [asbuilt_count_connected_geomdefect_nodes, get_ontology_uri,
      h6, h7, count_query_call, get_api_url, h0, hapi, post_general_request]
  · simpa using countQueryPayload_shape cfg iri hasDefectUri "defect"
      geomDefectUri true none

/-- Witness for C8 on the sample configuration. -/
theorem count_payload_two_stage_shape_witness :
    ((activity_count_connected_task_nodes sampleConfig sampleOracle
      "https://dtp.example.org/node/a1").1 =
      [Event.httpPost "https://dtp.example.org/api/query/count/_ID_"
        (countQueryPayload sampleConfig "https://dtp.example.org/node/a1"
          ("->" ++ "https://bim2twin.eu/ontology#hasTask") "hasTask"
          "https://bim2twin.eu/ontology#Task" [])] ∧
      IsTwoStageCountBody
        (countQueryPayload sampleConfig "https://dtp.example.org/node/a1"
          ("->" ++ "https://bim2twin.eu/ontology#hasTask") "hasTask"
          "https://bim2twin.eu/ontology#Task" [])
        sampleConfig.dtp_domain "https://dtp.example.org/node/a1"
        "https://bim2twin.eu/ontology#hasTask" true "hasTask"
        "https://bim2twin.eu/ontology#Task" none) ∧
    ((asdesigned_count_connected_asbuilt_nodes sampleConfig sampleOracle
      "https://dtp.example.org/node/a1").1 =
      [Event.httpPost "https://dtp.example.org/api/query/count/_ID_"
        (countQueryPayload sampleConfig "https://dtp.example.org/node/a1"
          ("<-" ++ "https://bim2twin.eu/ontology#intentStatus") "asbuilt"
          "https://bim2twin.eu/ontology#ClassElement"
          [("https://bim2twin.eu/ontology#isAsDesigned", Json.bool false)])] ∧
      IsTwoStageCountBody
        (countQueryPayload sampleConfig "https://dtp.example.org/node/a1"
          ("<-" ++ "https://bim2twin.eu/ontology#intentStatus") "asbuilt"
          "https://bim2twin.eu/ontology#ClassElement"
          [("https://bim2twin.eu/ontology#isAsDesigned", Json.bool false)])
        sampleConfig.dtp_domain "https://dtp.example.org/node/a1"
        "https://bim2twin.eu/ontology#intentStatus" false "asbuilt"
        "https://bim2twin.eu/ontology#ClassElement"
        (some ("https://bim2twin.eu/ontology#isAsDesigned",
          Json.bool false))) ∧
    ((asbuilt_count_connected_geomdefect_nodes sampleConfig sampleOracle
      "https://dtp.example.org/node/a1").1 =
      [Event.httpPost "https://dtp.example.org/api/query/count/_ID_"
        (countQueryPayload sampleConfig "https://dtp.example.org/node/a1"
          ("->" ++ "https://bim2twin.eu/ontology#hasGeomDefect") "defect"
          "https://bim2twin.eu/ontology#GeometricDefect" [])] ∧
      IsTwoStageCountBody
        (countQueryPayload sampleConfig "https://dtp.example.org/node/a1"
          ("->" ++ "https://bim2twin.eu/ontology#hasGeomDefect") "defect"
          "https://bim2twin.eu/ontology#GeometricDefect" [])
        sampleConfig.dtp_domain "https://dtp.example.org/node/a1"
        "https://bim2twin.eu/ontology#hasGeomDefect" true "defect"
        "https://bim2twin.eu/ontology#GeometricDefect" none) :=
  count_payload_two_stage_shape sampleConfig sampleOracle
    "https://dtp.example.org/node/a1"
    "https://dtp.example.org/api/query/count/_ID_"
    "https://bim2twin.eu/ontology#hasTask" "https://bim2twin.eu/ontology#Task"
    "https://bim2twin.eu/ontology#intentStatus"
    "https://bim2twin.eu/ontology#ClassElement"
    "https://bim2twin.eu/ontology#isAsDesigned"
    "https://bim2twin.eu/ontology#hasGeomDefect"
    "https://bim2twin.eu/ontology#GeometricDefect"
    rfl rfl rfl rfl rfl rfl rfl rfl

end DTPAPI
